import Mathlib

/-!
Verification development for figmaui2html.py, a Figma-document-tree to
HTML converter.  The Python source is embedded shallowly: JSON numbers
are modelled as rationals, JSON objects as structures whose optional
keys are Option fields, and the one network collaborator (get_image_url)
as an explicit function argument.  All definitions follow the source
line by line; theorems state the specified properties about them.
-/

/-- Decimal rendering of an integer scaled by a power of ten: the string
for m divided by ten to the k, with exactly k digits after the point.
Used to model how Python prints non-integer numbers such as 0.5. -/
def decDigits (m : ℤ) (k : ℕ) : String :=
  let sign := if m < 0 then "-" else ""
  let n := m.natAbs
  let ip := n / 10 ^ k
  let fr := n % 10 ^ k
  let frS := toString fr
  let pad := String.join (List.replicate (k - frS.length) "0")
  sign ++ toString ip ++ "." ++ pad ++ frS

/-- Models the Python str() applied to the numeric values interpolated
into the f-strings of the source.  JSON numbers are modelled as
rationals; an integer prints with no decimal point (as a Python int
does) and a value with a finite decimal expansion prints as its
shortest decimal (str(0.5) is "0.5").  The final branch is never
reached for numbers whose denominator divides a power of ten, which
covers every binary-float value a Figma JSON document can carry. -/
def fmtRat (q : ℚ) : String :=
  if q.den = 1 then toString q.num
  else
    match (List.range 40).find? (fun k => 10 ^ k % q.den = 0) with
    | some k => decDigits (q.num * ((10 ^ k : ℕ) / q.den : ℕ)) k
    | none => toString q.num ++ "/" ++ toString q.den

/-- Models the Python str() of an optional number obtained by dict.get
with no default: a missing key yields None, which prints as "None". -/
def pyShowOpt : Option ℚ → String
  | none => "None"
  | some q => fmtRat q

/-- Models the Python int() conversion on a rational: truncation toward
zero.  On a reduced fraction this is exactly the T-division of the
numerator by the denominator. -/
def pyint (q : ℚ) : ℤ :=
  q.num.tdiv q.den

/-- Models the Python str.lower() method: every character is
lowercased (only ASCII letters occur in the alignment keywords the
source lowercases). -/
def pyLower (s : String) : String :=
  String.mk (s.data.map Char.toLower)

/-- The r, g, b channels of a fill color, each a float in the unit
interval in a well-formed Figma document. -/
structure Color where
  r : ℚ
  g : ℚ
  b : ℚ

/-- One entry of the fills list of a node.  The type key is optional
(fill.get reads it); the color object is required by the source, which
subscripts it directly; opacity is optional with default 1. -/
structure Fill where
  type_ : Option String
  color : Color
  opacity : Option ℚ

/-- One entry of the layoutGrids list: pattern, count and gutterSize are
all read with dict.get, so all three are optional; count has no default
(a missing count becomes the Python value None). -/
structure Grid where
  pattern : Option String
  count : Option ℚ
  gutterSize : Option ℚ

/-- The absoluteBoundingBox object; the source subscripts x, y, width
and height directly, so all four are required. -/
structure BBox where
  x : ℚ
  y : ℚ
  width : ℚ
  height : ℚ

/-- The constraints object; horizontal and vertical are read with
dict.get, so both are optional. -/
structure Constraints where
  horizontal : Option String
  vertical : Option String

/-- The style object of a TEXT node; fontSize is read with dict.get
with default 12, so it is optional. -/
structure TextStyle where
  fontSize : Option ℚ

/-- The scalar fields of one Figma node, as read by process_node.  The
fills field is doubly optional: none models an absent key, some none
models a key present with JSON null, and some (some l) a list l — the
source normalises all of the first two (and the empty list) to [] with
the expression node.get("fills") or [].  The id field is required: the
IMAGE branch subscripts node["id"] directly. -/
structure NodeData where
  id : String
  type_ : Option String
  absoluteBoundingBox : Option BBox
  layoutMode : Option String
  itemSpacing : Option ℚ
  paddingTop : Option ℚ
  paddingRight : Option ℚ
  paddingBottom : Option ℚ
  paddingLeft : Option ℚ
  primaryAxisAlignItems : Option String
  counterAxisAlignItems : Option String
  constraints : Option Constraints
  layoutGrids : Option (List Grid)
  fills : Option (Option (List Fill))
  style : Option TextStyle
  characters : Option String

/-- A node with every optional field absent and an empty id; a
convenient base for building concrete test nodes. -/
def emptyData : NodeData :=
  { id := ""
    type_ := none
    absoluteBoundingBox := none
    layoutMode := none
    itemSpacing := none
    paddingTop := none
    paddingRight := none
    paddingBottom := none
    paddingLeft := none
    primaryAxisAlignItems := none
    counterAxisAlignItems := none
    constraints := none
    layoutGrids := none
    fills := none
    style := none
    characters := none }

/-- Models the source expression node.get("fills") or [] : an absent
key (none), a JSON null value (some none) and the empty list all
evaluate to the empty list; a non-empty list is returned unchanged. -/
def pyFills (d : NodeData) : List Fill :=
  match d.fills with
  | some (some l) => l
  | _ => []

/-- Embeds rgba_from_fill: a SOLID fill formats as rgba(R,G,B,A) with
each channel truncated by int(value*255) and A the opacity (default 1);
any other fill type yields the empty string. -/
def rgba_from_fill (fill : Fill) : String :=
  if fill.type_ = some "SOLID" then
    let c := fill.color
    "rgba(" ++ toString (pyint (c.r * 255)) ++ "," ++
      toString (pyint (c.g * 255)) ++ "," ++
      toString (pyint (c.b * 255)) ++ "," ++
      fmtRat (fill.opacity.getD 1) ++ ")"
  else ""

/-- Embeds step 1 of process_node: absolute position and size from
absoluteBoundingBox, when present. -/
def positionCss (d : NodeData) : String :=
  match d.absoluteBoundingBox with
  | none => ""
  | some bb =>
      "position:absolute; " ++
      "left:" ++ fmtRat bb.x ++ "px; top:" ++ fmtRat bb.y ++ "px; " ++
      "width:" ++ fmtRat bb.width ++ "px; height:" ++ fmtRat bb.height ++ "px; "

/-- Embeds step 2 of process_node: the auto-layout flex block.  The
source guards with the Python truthiness of node.get("layoutMode"), so
an absent key and an empty string both contribute nothing. -/
def autoLayoutCss (d : NodeData) : String :=
  match d.layoutMode with
  | none => ""
  | some mode =>
      if mode = "" then ""
      else
        "display:flex; " ++
        "flex-direction:" ++ (if mode = "HORIZONTAL" then "row" else "column") ++ "; " ++
        "gap:" ++ fmtRat (d.itemSpacing.getD 0) ++ "px; " ++
        "padding:" ++ fmtRat (d.paddingTop.getD 0) ++ "px " ++
          fmtRat (d.paddingRight.getD 0) ++ "px " ++
          fmtRat (d.paddingBottom.getD 0) ++ "px " ++
          fmtRat (d.paddingLeft.getD 0) ++ "px; " ++
        "align-items:" ++ pyLower (d.primaryAxisAlignItems.getD "MIN") ++ "; " ++
        "justify-content:" ++ pyLower (d.counterAxisAlignItems.getD "MIN") ++ "; "

/-- Embeds step 3 of process_node: the constraints block.  The
horizontal and vertical keys are evaluated independently; any value
other than STRETCH or CENTER (including an absent key) contributes
nothing. -/
def constraintsCss (d : NodeData) : String :=
  let cons := d.constraints.getD { horizontal := none, vertical := none }
  (match cons.horizontal with
   | some "STRETCH" => "width:100%; "
   | some "CENTER" => "margin-left:auto; margin-right:auto; "
   | _ => "") ++
  (match cons.vertical with
   | some "STRETCH" => "height:100%; "
   | some "CENTER" => "margin-top:auto; margin-bottom:auto; "
   | _ => "")

/-- Embeds step 4 of process_node: the layout-grid block.  Only the
first grid entry is consulted and only the COLUMNS pattern fires; a
missing count is interpolated as the Python literal None. -/
def gridCss (d : NodeData) : String :=
  match d.layoutGrids.getD [] with
  | [] => ""
  | g :: _ =>
      if g.pattern = some "COLUMNS" then
        "display:grid; " ++
        "grid-template-columns: repeat(" ++ pyShowOpt g.count ++ ", 1fr); " ++
        "column-gap: " ++ fmtRat (g.gutterSize.getD 0) ++ "px; "
      else ""

/-- Embeds step 5 of process_node: the background block, applied only
when the node type differs from TEXT, the normalised fills list is
non-empty, and the first fill yields a non-empty color string. -/
def backgroundCss (d : NodeData) : String :=
  if d.type_ ≠ some "TEXT" then
    match pyFills d with
    | [] => ""
    | f :: _ =>
        let color_str := rgba_from_fill f
        if color_str ≠ "" then "background-color: " ++ color_str ++ "; " else ""
  else ""

/-- The full style string a node accumulates in process_node: the five
rule groups appended in source order. -/
def synthesize (d : NodeData) : String :=
  positionCss d ++ autoLayoutCss d ++ constraintsCss d ++ gridCss d ++ backgroundCss d

/-- Embeds the text_color local of the TEXT branch: black unless the
normalised fills list is non-empty and its first entry has type SOLID,
in which case rgba_from_fill of that entry. -/
def text_color (d : NodeData) : String :=
  match pyFills d with
  | [] => "black"
  | f :: _ => if f.type_ = some "SOLID" then rgba_from_fill f else "black"

mutual
/-- A Figma node: its scalar fields together with its ordered children.
The children list is a dedicated mutually-inductive list type so that
the renderer is structurally recursive.  An absent children key in the
JSON is modelled as the empty list, exactly what the source reads with
node.get("children", []). -/
inductive Node : Type where
  | node (data : NodeData) (children : NodeList)

/-- An ordered sequence of sibling nodes. -/
inductive NodeList : Type where
  | nil
  | cons (head : Node) (tail : NodeList)
end

/-- The ordinary list of children of a node list, in order. -/
def NodeList.toList : NodeList → List Node
  | .nil => []
  | .cons c cs => c :: cs.toList

/-- The scalar fields of a node. -/
def Node.data : Node → NodeData
  | .node d _ => d

/-- The children of a node. -/
def Node.children : Node → NodeList
  | .node _ cs => cs

/-- Embeds get_image_url for a run in which the service call succeeds:
the collaborator response is the id-to-URL mapping of the images object
of the JSON reply, and a node id with no entry yields the empty string,
exactly the source expression res.json()["images"].get(node_id, ""). -/
def get_image_url (images : String → Option String) (node_id : String) : String :=
  (images node_id).getD ""

/-- Embeds get_image_url including the failure path: the collaborator
response is either a transport or authorization error (raised by
res.raise_for_status and propagated) or the id-to-URL mapping. -/
def get_image_url_E (resp : Except String (String → Option String))
    (node_id : String) : Except String String :=
  match resp with
  | .error e => .error e
  | .ok images => .ok ((images node_id).getD "")

/-- The paragraph markup the TEXT branch of process_node emits. -/
def textHtml (d : NodeData) : String :=
  let css := synthesize d
  let size := (d.style.getD { fontSize := none }).fontSize.getD 12
  "<p style=\"" ++ css ++ "font-size:" ++ fmtRat size ++ "px; color:" ++
    text_color d ++ ";\">" ++ d.characters.getD "" ++ "</p>"

/-- The self-closing image markup the IMAGE branch of process_node
emits, given the source URL returned by the collaborator. -/
def imgHtml (d : NodeData) (src : String) : String :=
  "<img src=\"" ++ src ++ "\" style=\"" ++ synthesize d ++ "\" />"

/-- The empty container markup the default branch of process_node
emits. -/
def divHtml (d : NodeData) : String :=
  "<div style=\"" ++ synthesize d ++ "\"></div>"

/-- The markup of one node itself (before children are appended), under
a successfully-responding asset collaborator: the type dispatch of
process_node. -/
def ownHtml (images : String → Option String) (d : NodeData) : String :=
  if d.type_ = some "TEXT" then textHtml d
  else if d.type_ = some "IMAGE" then imgHtml d (get_image_url images d.id)
  else divHtml d

/-- The markup of one node itself when the asset collaborator may fail:
only the IMAGE branch consults the collaborator, so only it can
propagate an error. -/
def ownHtmlE (resp : Except String (String → Option String))
    (d : NodeData) : Except String String :=
  if d.type_ = some "TEXT" then .ok (textHtml d)
  else if d.type_ = some "IMAGE" then
    match get_image_url_E resp d.id with
    | .error e => .error e
    | .ok src => .ok (imgHtml d src)
  else .ok (divHtml d)

mutual
/-- Embeds process_node under a successfully-responding asset
collaborator: the markup of the node itself, then the loop
for child in node.get("children", []): html += process_node(child),
which appends each rendered child after the accumulated string. -/
def processNode (images : String → Option String) : Node → String
  | .node d cs => renderChildren images (ownHtml images d) cs

/-- The child loop of process_node: html += process_node(child) for
each child in order, starting from the accumulated markup. -/
def renderChildren (images : String → Option String) :
    String → NodeList → String
  | acc, .nil => acc
  | acc, .cons c cs => renderChildren images (acc ++ processNode images c) cs
end

mutual
/-- Embeds process_node when the asset collaborator may fail: a raised
error propagates out of the recursion unchanged, aborting the render of
the whole tree. -/
def processNodeE (resp : Except String (String → Option String)) :
    Node → Except String String
  | .node d cs =>
      match ownHtmlE resp d with
      | .error e => .error e
      | .ok own => renderChildrenE resp own cs

/-- The child loop of process_node with error propagation: the first
child whose rendering fails aborts the loop. -/
def renderChildrenE (resp : Except String (String → Option String)) :
    String → NodeList → Except String String
  | acc, .nil => .ok acc
  | acc, .cons c cs =>
      match processNodeE resp c with
      | .error e => .error e
      | .ok h => renderChildrenE resp (acc ++ h) cs
end

/-- Embeds generate_html: the fixed document shell around the rendered
root markup (the file write is outside the embedding). -/
def generate_html (images : String → Option String) (doc : Node) : String :=
  "<!DOCTYPE html>\n<html lang=\"en\">\n<head>\n  <meta charset=\"UTF-8\">\n" ++
  "  <title>Figma to HTML</title>\n" ++
  "  <style>body\x7bposition:relative;margin:0;padding:0;\x7d</style>\n" ++
  "</head>\n<body>\n" ++ processNode images doc ++ "\n</body>\n</html>"

/-- The asset collaborator response of a run in which no node id has a
rendered image: every lookup is empty. -/
def img0 : String → Option String := fun _ => none

/-- A SOLID red fill with opacity one half. -/
def redFill : Fill := { type_ := some "SOLID", color := { r := 1, g := 0, b := 0 }, opacity := some (mkRat 1 2) }

/-- A SOLID black fill with opacity one. -/
def blackFill : Fill := { type_ := some "SOLID", color := { r := 0, g := 0, b := 0 }, opacity := some 1 }

/-- A horizontal auto-layout node: itemSpacing 8, all paddings 4,
alignments left at their defaults. -/
def flexNode : NodeData :=
  { emptyData with
    layoutMode := some "HORIZONTAL"
    itemSpacing := some 8
    paddingTop := some 4
    paddingRight := some 4
    paddingBottom := some 4
    paddingLeft := some 4 }

/-- A node with only an absoluteBoundingBox. -/
def boxNode : NodeData :=
  { emptyData with absoluteBoundingBox := some { x := 10, y := 20, width := 30, height := 40 } }

/-- A node whose first layout grid has pattern COLUMNS but no count. -/
def gridNoCount : NodeData :=
  { emptyData with layoutGrids := some [{ pattern := some "COLUMNS", count := none, gutterSize := none }] }

/-- As gridNoCount but with gutterSize 10. -/
def gridNoCount10 : NodeData :=
  { emptyData with layoutGrids := some [{ pattern := some "COLUMNS", count := none, gutterSize := some 10 }] }

/-- A TEXT node carrying a red SOLID fill. -/
def textRed : NodeData := { emptyData with type_ := some "TEXT", fills := some (some [redFill]) }

/-- A default-type node carrying a red SOLID fill. -/
def divRed : NodeData := { emptyData with fills := some (some [redFill]) }

/-- The TEXT node of the end-to-end example: characters Hello,
fontSize 20, SOLID black fill of opacity 1. -/
def helloText : NodeData :=
  { emptyData with
    type_ := some "TEXT"
    characters := some "Hello"
    style := some { fontSize := some 20 }
    fills := some (some [blackFill]) }

/-- An IMAGE node with id 9:9 and no styling. -/
def imageNode : NodeData := { emptyData with type_ := some "IMAGE", id := "9:9" }

/-- A node whose fills key is present but null. -/
def nullFillsNode : NodeData := { emptyData with fills := some none }

/-- A TEXT node whose characters are the HTML-special string of an
opening bold tag. -/
def unescapedTextNode : NodeData := { emptyData with type_ := some "TEXT", characters := some "<b>" }

/-- Scaling a rational by 255 is forming the fraction of the scaled
numerator over the same denominator; lets the kernel evaluate the
otherwise irreducible rational multiplication. -/
theorem mul255_eq_mkRat (q : ℚ) : q * 255 = mkRat (q.num * 255) q.den := by
  rw [Rat.mul_def]
  norm_num [Rat.normalize_eq_mkRat]

/-- The child-rendering loop appends, after the accumulated markup, the
concatenation of the rendered children in order. -/
theorem renderChildren_eq (images : String → Option String) :
    ∀ (cs : NodeList) (acc : String),
      renderChildren images acc cs =
        acc ++ (cs.toList.map (processNode images)).foldr (fun a b => a ++ b) ""
  | .nil, acc => (String.append_empty acc).symm
  | .cons c cs, acc => by
      simp only [renderChildren, NodeList.toList, List.map_cons, List.foldr_cons]
      rw [renderChildren_eq images cs (acc ++ processNode images c)]
      rw [String.append_assoc]

/-- When the collaborator responds successfully, the markup of a single
node never fails and agrees with the pure rendering. -/
theorem ownHtmlE_ok (images : String → Option String) (d : NodeData) :
    ownHtmlE (.ok images) d = .ok (ownHtml images d) := by
  unfold ownHtmlE ownHtml get_image_url_E get_image_url
  split
  · rfl
  · split
    · rfl
    · rfl

mutual
/-- When the collaborator responds successfully, rendering a node never
fails and agrees with the pure rendering. -/
theorem processNodeE_ok (images : String → Option String) :
    ∀ n : Node, processNodeE (.ok images) n = .ok (processNode images n)
  | .node d cs => by
      simp only [processNodeE, processNode, ownHtmlE_ok]
      exact renderChildrenE_ok images (ownHtml images d) cs

/-- When the collaborator responds successfully, the child loop never
fails and agrees with the pure child loop. -/
theorem renderChildrenE_ok (images : String → Option String) :
    ∀ (acc : String) (cs : NodeList),
      renderChildrenE (.ok images) acc cs = .ok (renderChildren images acc cs)
  | _, .nil => rfl
  | acc, .cons c cs => by
      simp only [renderChildrenE, renderChildren, processNodeE_ok images c]
      exact renderChildrenE_ok images (acc ++ processNode images c) cs
end

/-- C1: a TEXT node whose characters are an opening bold tag renders its
characters verbatim into the paragraph body: the emitted markup contains
the literal unescaped tag, not an escaped form.  This evaluates the code
at the failing input of the escaping requirement. -/
theorem text_characters_rendered_unescaped :
    processNode img0 (.node unescapedTextNode .nil) =
      "<p style=\"font-size:12px; color:black;\"><b></p>" := by
  decide

/-- C4: rendering a node is the markup of the node itself followed by
the concatenation, in input order, of the renderings of its children;
in particular a node with no children renders to exactly its own
element. -/
theorem render_is_flat_concatenation (images : String → Option String)
    (d : NodeData) (cs : NodeList) :
    processNode images (.node d cs) =
      ownHtml images d ++ (cs.toList.map (processNode images)).foldr (fun a b => a ++ b) "" ∧
    processNode images (.node d .nil) = ownHtml images d := by
  constructor
  · simp only [processNode]
    exact renderChildren_eq images cs (ownHtml images d)
  · rfl

/-- C6 counterexample: on a node whose first layout grid has pattern
COLUMNS and no count, style synthesis raises no data-validation error;
it silently emits a grid declaration interpolating the Python literal
None as the repeat count. -/
theorem grid_missing_count_counterexample :
    synthesize gridNoCount =
      "display:grid; grid-template-columns: repeat(None, 1fr); column-gap: 0px; " := by
  decide

/-- C6 amended: for every node whose first layoutGrids entry has pattern
COLUMNS but no count, synthesis does not fail: it emits a grid
declaration whose repeat count is the literal string None, with the
gutterSize default 0 applied. -/
theorem grid_missing_count_emits_none (d : NodeData) (g : Grid) (rest : List Grid)
    (hg : d.layoutGrids = some (g :: rest)) (hp : g.pattern = some "COLUMNS")
    (hc : g.count = none) :
    synthesize d =
      positionCss d ++ autoLayoutCss d ++ constraintsCss d ++
        ("display:grid; " ++
         "grid-template-columns: repeat(" ++ "None" ++ ", 1fr); " ++
         "column-gap: " ++ fmtRat (g.gutterSize.getD 0) ++ "px; ") ++
        backgroundCss d := by
  unfold synthesize gridCss
  rw [hg]
  simp only [Option.getD_some, hp, hc]
  rfl

/-- C6 witness: the amended statement evaluated on a concrete node with
gutterSize 10. -/
theorem grid_missing_count_emits_none_witness :
    synthesize gridNoCount10 =
      "display:grid; grid-template-columns: repeat(None, 1fr); column-gap: 10px; " := by
  refine (grid_missing_count_emits_none gridNoCount10
    { pattern := some "COLUMNS", count := none, gutterSize := some 10 } [] rfl rfl rfl).trans ?_
  decide

/-- For a nonnegative rational, the Python truncation int() agrees with
the mathematical floor. -/
theorem pyint_eq_floor (q : ℚ) (h : 0 ≤ q) : pyint q = ⌊q⌋ := by
  unfold pyint
  rw [Rat.floor_def]
  exact Int.tdiv_eq_ediv (Rat.num_nonneg.mpr h) (Int.natCast_nonneg _)

/-- C2: a TEXT node's synthesized style consists of the four
non-background rule groups only — no background-color declaration is
ever appended — while a non-TEXT node whose normalised fills list is
non-empty and whose first fill yields a non-empty color string gets a
background-color declaration with exactly that color. -/
theorem background_only_for_nontext (d : NodeData) :
    (d.type_ = some "TEXT" →
      synthesize d = positionCss d ++ autoLayoutCss d ++ constraintsCss d ++ gridCss d) ∧
    (∀ f rest, d.type_ ≠ some "TEXT" → pyFills d = f :: rest → rgba_from_fill f ≠ "" →
      synthesize d = positionCss d ++ autoLayoutCss d ++ constraintsCss d ++ gridCss d ++
        ("background-color: " ++ rgba_from_fill f ++ "; ")) := by
  constructor
  · intro h
    unfold synthesize backgroundCss
    rw [if_neg (by simp [h])]
    exact String.append_empty _
  · intro f rest hne hf hcol
    unfold synthesize backgroundCss
    rw [if_pos hne]
    simp only [hf]
    rw [if_pos hcol]

/-- C2 witness: a TEXT node with a red fill synthesizes no style at all
(so in particular no background), while the same fill on a default-type
node synthesizes exactly the background declaration. -/
theorem background_only_for_nontext_witness :
    synthesize textRed = "" ∧
    synthesize divRed = "background-color: rgba(255,0,0,0.5); " := by
  constructor
  · exact ((background_only_for_nontext textRed).1 rfl).trans (by decide)
  · refine (((background_only_for_nontext divRed).2 redFill [] (by decide) rfl
      (by simp only [rgba_from_fill, mul255_eq_mkRat]; decide)).trans ?_)
    simp only [rgba_from_fill, mul255_eq_mkRat]
    decide

/-- C3: on a SOLID fill whose channels lie in the unit interval,
rgba_from_fill formats rgba(R,G,B,A) where each channel is the floor
(truncation, no rounding) of the channel value times 255 — an integer
between 0 and 255 — and A is the opacity, default 1, not scaled; any
non-SOLID fill contributes the empty string. -/
theorem rgba_solid_truncation (f : Fill)
    (h0r : 0 ≤ f.color.r) (h1r : f.color.r ≤ 1)
    (h0g : 0 ≤ f.color.g) (h1g : f.color.g ≤ 1)
    (h0b : 0 ≤ f.color.b) (h1b : f.color.b ≤ 1) :
    (f.type_ = some "SOLID" →
      rgba_from_fill f =
        "rgba(" ++ toString ⌊f.color.r * 255⌋ ++ "," ++ toString ⌊f.color.g * 255⌋ ++ "," ++
          toString ⌊f.color.b * 255⌋ ++ "," ++ fmtRat (f.opacity.getD 1) ++ ")" ∧
      (0 ≤ ⌊f.color.r * 255⌋ ∧ ⌊f.color.r * 255⌋ ≤ 255) ∧
      (0 ≤ ⌊f.color.g * 255⌋ ∧ ⌊f.color.g * 255⌋ ≤ 255) ∧
      (0 ≤ ⌊f.color.b * 255⌋ ∧ ⌊f.color.b * 255⌋ ≤ 255)) ∧
    (f.type_ ≠ some "SOLID" → rgba_from_fill f = "") := by
  have floor255 : ⌊(255:ℚ)⌋ = 255 := by norm_num
  have bound : ∀ q : ℚ, 0 ≤ q → q ≤ 1 → 0 ≤ ⌊q * 255⌋ ∧ ⌊q * 255⌋ ≤ 255 := by
    intro q h0 h1
    refine ⟨Int.floor_nonneg.mpr (mul_nonneg h0 (by norm_num)), ?_⟩
    have hq : q * 255 ≤ 255 := by nlinarith
    exact le_of_le_of_eq (Int.floor_le_floor hq) floor255
  constructor
  · intro h
    refine ⟨?_, bound _ h0r h1r, bound _ h0g h1g, bound _ h0b h1b⟩
    unfold rgba_from_fill
    rw [if_pos h]
    dsimp only
    rw [pyint_eq_floor _ (mul_nonneg h0r (by norm_num)),
        pyint_eq_floor _ (mul_nonneg h0g (by norm_num)),
        pyint_eq_floor _ (mul_nonneg h0b (by norm_num))]
  · intro h
    unfold rgba_from_fill
    rw [if_neg h]

/-- C3 witness: the SOLID red fill of opacity one half formats as
rgba(255,0,0,0.5). -/
theorem rgba_solid_truncation_witness :
    rgba_from_fill redFill = "rgba(255,0,0,0.5)" := by
  refine ((rgba_solid_truncation redFill (by decide) (by decide) (by decide) (by decide)
    (by decide) (by decide)).1 rfl).1.trans ?_
  simp only [mul255_eq_mkRat]
  decide

/-- C5: a node whose layoutMode is present (a non-empty string; in a
well-formed document HORIZONTAL or VERTICAL) synthesizes a flex block:
row direction exactly when the mode is HORIZONTAL and column otherwise,
gap from itemSpacing (default 0), the four paddings in
top right bottom left order (default 0 each), align-items the lowercase
of primaryAxisAlignItems (default MIN) and justify-content the
lowercase of counterAxisAlignItems (default MIN) — the crossed
axis-to-property mapping of the source. -/
theorem autolayout_flex_block (d : NodeData) (m : String)
    (hm : d.layoutMode = some m) (hne : m ≠ "") :
    synthesize d =
      positionCss d ++
        ("display:flex; " ++
         "flex-direction:" ++ (if m = "HORIZONTAL" then "row" else "column") ++ "; " ++
         "gap:" ++ fmtRat (d.itemSpacing.getD 0) ++ "px; " ++
         "padding:" ++ fmtRat (d.paddingTop.getD 0) ++ "px " ++
           fmtRat (d.paddingRight.getD 0) ++ "px " ++
           fmtRat (d.paddingBottom.getD 0) ++ "px " ++
           fmtRat (d.paddingLeft.getD 0) ++ "px; " ++
         "align-items:" ++ pyLower (d.primaryAxisAlignItems.getD "MIN") ++ "; " ++
         "justify-content:" ++ pyLower (d.counterAxisAlignItems.getD "MIN") ++ "; ") ++
        constraintsCss d ++ gridCss d ++ backgroundCss d := by
  unfold synthesize autoLayoutCss
  simp only [hm]
  rw [if_neg hne]

/-- C5 witness: the horizontal auto-layout node with itemSpacing 8 and
all paddings 4 synthesizes exactly the specified flex block. -/
theorem autolayout_flex_block_witness :
    synthesize flexNode =
      "display:flex; flex-direction:row; gap:8px; padding:4px 4px 4px 4px; align-items:min; justify-content:min; " :=
  (autolayout_flex_block flexNode "HORIZONTAL" rfl (by decide)).trans (by decide)

/-- C9: every node with an absoluteBoundingBox, whatever its type,
synthesizes absolute positioning whose left, top, width and height are
the box values verbatim, ahead of all other rule groups. -/
theorem bounding_box_absolute_position (d : NodeData) (bb : BBox)
    (h : d.absoluteBoundingBox = some bb) :
    synthesize d =
      ("position:absolute; " ++
       "left:" ++ fmtRat bb.x ++ "px; top:" ++ fmtRat bb.y ++ "px; " ++
       "width:" ++ fmtRat bb.width ++ "px; height:" ++ fmtRat bb.height ++ "px; ") ++
        autoLayoutCss d ++ constraintsCss d ++ gridCss d ++ backgroundCss d := by
  unfold synthesize positionCss
  simp only [h]

/-- C9 witness: the node with box x 10, y 20, width 30, height 40
synthesizes exactly the corresponding absolute-position style. -/
theorem bounding_box_absolute_position_witness :
    synthesize boxNode = "position:absolute; left:10px; top:20px; width:30px; height:40px; " :=
  (bounding_box_absolute_position boxNode { x := 10, y := 20, width := 30, height := 40 }
    rfl).trans (by decide)

/-- C7: a TEXT node renders a paragraph whose inline style is the
synthesized style followed by font-size from style.fontSize (default
12) in px and then color: the rgba of the first fill when that fill is
SOLID, and the literal black when the fills key is absent, null, the
empty list, or its first entry is not SOLID; the body is the characters
value (default empty). -/
theorem text_paragraph_style (images : String → Option String) (d : NodeData)
    (h : d.type_ = some "TEXT") :
    ownHtml images d =
      "<p style=\"" ++ synthesize d ++ "font-size:" ++
        fmtRat ((d.style.getD { fontSize := none }).fontSize.getD 12) ++ "px; color:" ++
        (match d.fills with
         | some (some (f :: _)) => if f.type_ = some "SOLID" then rgba_from_fill f else "black"
         | _ => "black") ++ ";\">" ++ d.characters.getD "" ++ "</p>" := by
  unfold ownHtml
  rw [if_pos h]
  unfold textHtml text_color pyFills
  cases hfl : d.fills with
  | none => simp only [hfl]
  | some fl =>
      cases fl with
      | none => simp only [hfl]
      | some l =>
          cases l with
          | nil => simp only [hfl]
          | cons f t => simp only [hfl]

/-- C7 witness: the Hello TEXT node with fontSize 20 and a SOLID black
fill of opacity 1 renders with exactly the specified inline style. -/
theorem text_paragraph_style_witness :
    ownHtml img0 helloText = "<p style=\"font-size:20px; color:rgba(0,0,0,1);\">Hello</p>" := by
  refine (text_paragraph_style img0 helloText rfl).trans ?_
  simp only [rgba_from_fill, mul255_eq_mkRat]
  decide

/-- C8: on an IMAGE node whose id the collaborator maps to no URL (a
normal, successful response), the render emits a self-closing image
element with an empty source and does not fail — the successful
collaborator path never yields an error — whereas a collaborator
failure propagates unchanged, aborting the render of the node. -/
theorem image_empty_url_not_error (images : String → Option String) (d : NodeData)
    (cs : NodeList) (e : String) (ht : d.type_ = some "IMAGE") (hnone : images d.id = none) :
    processNode images (.node d cs) =
      ("<img src=\"\" style=\"" ++ synthesize d ++ "\" />") ++
        (cs.toList.map (processNode images)).foldr (fun a b => a ++ b) "" ∧
    processNodeE (.ok images) (.node d cs) = .ok (processNode images (.node d cs)) ∧
    processNodeE (.error e) (.node d cs) = .error e := by
  refine ⟨?_, processNodeE_ok images _, ?_⟩
  · simp only [processNode]
    rw [renderChildren_eq]
    congr 1
    unfold ownHtml get_image_url imgHtml
    rw [if_neg (by simp [ht]), if_pos ht, hnone]
    rfl
  · simp only [processNodeE]
    unfold ownHtmlE
    rw [if_neg (by simp [ht]), if_pos ht]
    rfl

/-- C8 witness: the concrete IMAGE node under the empty mapping renders
an image element with empty source, and under a collaborator error the
render is exactly that error. -/
theorem image_empty_url_not_error_witness :
    processNode img0 (.node imageNode .nil) = "<img src=\"\" style=\"\" />" ∧
    processNodeE (.error "HTTPError") (.node imageNode .nil) = .error "HTTPError" := by
  have h := image_empty_url_not_error img0 imageNode .nil "HTTPError" rfl rfl
  exact ⟨h.1.trans (by decide), h.2.2⟩

/-- C10: a node whose fills key is present but null renders exactly as
if fills were the empty list; in particular a non-TEXT node gets no
background block and a TEXT node's color falls back to black.  No
error arises from the null value. -/
theorem null_fills_like_empty (images : String → Option String) (d : NodeData)
    (cs : NodeList) (h : d.fills = some none) :
    processNode images (.node d cs) =
      processNode images (.node { d with fills := some (some []) } cs) ∧
    (d.type_ ≠ some "TEXT" → backgroundCss d = "") ∧
    (d.type_ = some "TEXT" → text_color d = "black") := by
  obtain ⟨i, ty, bb, lm, isp, pt, pr, pb, pl, pa, ca, co, lg, fl, st, ch⟩ := d
  dsimp only at h
  subst h
  refine ⟨rfl, ?_, ?_⟩
  · intro hty
    unfold backgroundCss pyFills
    rw [if_pos hty]
  · intro _
    rfl

/-- C10 witness: the node with null fills renders identically to the
same node with an empty fills list. -/
theorem null_fills_like_empty_witness :
    processNode img0 (.node nullFillsNode .nil) =
      processNode img0 (.node { nullFillsNode with fills := some (some []) } .nil) :=
  (null_fills_like_empty img0 nullFillsNode .nil rfl).1
